import Mathlib

/-!
Shallow embedding of the webhook notification dispatcher of cal.com's
`packages/features/bookings/lib/handleBookingRequested.ts`.

The JavaScript source builds a webhook payload by object spread
(`{ ...evt, ...eventTypeInfo, bookingId }`), resolves subscribers via
`getWebhooks`, and fans out `sendPayload` calls with per-subscriber
`.catch` handlers inside an outer try/catch.  We model JavaScript values
and object-spread semantics explicitly, and model the coordinator as a
deterministic function of an oracle `World` describing the outcomes of
the external calls (email sends, subscriber resolution, deliveries),
producing the value returned to the caller together with a trace of
observable events.
-/

namespace CalWebhooks

/-- A JavaScript runtime value, as far as the payload-building code needs:
`undefined`, `null`, booleans, numbers and strings. -/
inductive JsValue where
  | undef : JsValue
  | null : JsValue
  | bool : Bool → JsValue
  | num : Int → JsValue
  | str : String → JsValue
  deriving DecidableEq, Repr

/-- JavaScript truthiness: `undefined`, `null`, `false`, `0` and `""` are
falsy, everything else is truthy. -/
def JsValue.truthy : JsValue → Bool
  | .undef => false
  | .null => false
  | .bool b => b
  | .num n => n != 0
  | .str s => s != ""

/-- JavaScript short-circuit `a || b`: the left operand when truthy,
otherwise the right operand. -/
def jsOr (a b : JsValue) : JsValue :=
  if a.truthy then a else b

/-- A JavaScript object, as an association list of own properties.  A later
binding of the same key shadows an earlier one, matching the semantics of
object literals and spreads. -/
def JsObject := List (String × JsValue)

instance : DecidableEq JsObject := by unfold JsObject; infer_instance

deriving instance DecidableEq for Except

instance : Append JsObject := ⟨List.append⟩

/-- Key presence `k in o`: whether the object has key `k` (even with value
`undefined`). -/
def JsObject.hasKey (o : JsObject) (k : String) : Bool :=
  o.any (fun p => p.1 == k)

/-- Property lookup: the value of the last binding of `k`, or `none` when
the key is absent.  `some .undef` (key present, value `undefined`) is
distinct from `none` (key absent), as in JavaScript. -/
def JsObject.getKey (o : JsObject) (k : String) : Option JsValue :=
  (o.reverse.find? (fun p => p.1 == k)).map (fun p => p.2)

/-- Object spread `{ ...a, ...b }`: all bindings of `a` then all of `b`,
so `b`'s keys shadow `a`'s. -/
def JsObject.spread (a b : JsObject) : JsObject :=
  (a : List (String × JsValue)) ++ b

/-- The `booking.eventType` record of `handleBookingRequested`'s argument:
`{ currency; description: string | null; id; length; price;
requiresConfirmation; title; teamId?: number | null }`. -/
structure EventType where
  currency : String
  description : Option String
  id : Int
  length : Int
  price : Int
  requiresConfirmation : Bool
  title : String
  teamId : Option (Option Int)
  deriving DecidableEq, Repr

/-- Optional chaining `et?.f`: `undefined` when `et` is `null`, else the
field value. -/
def optChain (et : Option EventType) (f : EventType → JsValue) : JsValue :=
  match et with
  | none => .undef
  | some e => f e

/-- A `string | null` field read as a JsValue. -/
def nullableStr (s : Option String) : JsValue :=
  match s with
  | none => .null
  | some v => .str v

/-- The `eventTypeInfo` object literal of `handleBookingRequested`:
```
{ eventTitle: booking.eventType?.title,
  eventDescription: booking.eventType?.description,
  requiresConfirmation: booking.eventType?.requiresConfirmation || null,
  price: booking.eventType?.price,
  currency: booking.eventType?.currency,
  length: booking.eventType?.length }
``` -/
def eventTypeInfo (et : Option EventType) : JsObject :=
  [ ("eventTitle", optChain et (fun e => .str e.title)),
    ("eventDescription", optChain et (fun e => nullableStr e.description)),
    ("requiresConfirmation", jsOr (optChain et (fun e => .bool e.requiresConfirmation)) .null),
    ("price", optChain et (fun e => .num e.price)),
    ("currency", optChain et (fun e => .str e.currency)),
    ("length", optChain et (fun e => .num e.length)) ]

/-- The generic three-way payload merge `{ ...evt, ...eti, ...trig }`:
calendar-event snapshot, then event-type info, then trigger-specific
fields. -/
def mergePayload (evt eti trig : JsObject) : JsObject :=
  (evt.spread eti).spread trig

/-- The payload `handleBookingRequested` passes to `sendPayload`:
`{ ...evt, ...eventTypeInfo, bookingId }` — the trigger-specific fields
are the single binding `bookingId`. -/
def buildPayload (evt : JsObject) (et : Option EventType) (bookingId : Int) : JsObject :=
  mergePayload evt (eventTypeInfo et) [("bookingId", .num bookingId)]

theorem JsObject.getKey_append (a b : JsObject) (k : String) :
    JsObject.getKey (a ++ b) k =
      if b.hasKey k then b.getKey k else a.getKey k := by
  unfold JsObject.getKey JsObject.hasKey
  show ((List.append a b).reverse.find? _).map _ = _
  rw [List.append_eq, List.reverse_append, List.find?_append]
  rcases h : b.reverse.find? (fun p => p.1 == k) with _ | p
  · have hb : (b.any fun p => p.1 == k) = false := by
      rw [← List.any_reverse, List.any_eq_false]
      intro p hp
      simpa using List.find?_eq_none.mp h p hp
    simp [hb, h]
  · have hb : (b.any fun p => p.1 == k) = true := by
      rw [← List.any_reverse]
      have hpk := List.find?_some h
      exact List.any_eq_true.mpr ⟨p, List.mem_of_find?_eq_some h, hpk⟩
    simp [hb, h]

theorem JsObject.getKey_spread (a b : JsObject) (k : String) :
    (a.spread b).getKey k = if b.hasKey k then b.getKey k else a.getKey k := by
  unfold JsObject.spread
  exact JsObject.getKey_append a b k

/-- The `WebhookTriggerEvents` enumeration (`@calcom/prisma/enums`), restricted
to the trigger kinds the spec surfaces: booking created, booking requested,
booking cancelled, booking rescheduled, payment initiated. -/
inductive WebhookTriggerEvent where
  | BOOKING_CREATED
  | BOOKING_REQUESTED
  | BOOKING_CANCELLED
  | BOOKING_RESCHEDULED
  | BOOKING_PAYMENT_INITIATED
  deriving DecidableEq, Repr

/-- A webhook subscription record as the dispatcher sees it: the code reads
`sub.secret` and `sub.subscriberUrl` and passes `sub` whole to `sendPayload`;
the resolver filters on `active` and the enabled-trigger set. -/
structure Subscription where
  id : Nat
  subscriberUrl : String
  secret : Option String
  appId : Option String
  active : Bool
  eventTriggers : List WebhookTriggerEvent
  deriving DecidableEq, Repr

/-- Modelled from the spec: the source of `getWebhooks`
(`@calcom/features/webhooks/lib/getWebhooks`) is not part of this repository
fragment — only its caller is.  Per spec §4.1, given the stored subscriptions
in scope for the query (user/event-type/team scoping is abstracted into the
`table` argument), it returns exactly those with `active = true` whose
enabled-trigger set contains the requested trigger. -/
def getWebhooks (trigger : WebhookTriggerEvent) (table : List Subscription) :
    List Subscription :=
  table.filter (fun s => s.active && s.eventTriggers.contains trigger)

/-- Observable events of one `handleBookingRequested` call, in the order the
await/issue points occur: the two request emails, the resolver outcome, the
issuing (`attemptStart`) and settling (`attemptDone`) of each `sendPayload`
promise, the two `console.error` logging sites, and the normal return. -/
inductive Event where
  | organizerEmailSent
  | attendeeEmailSent
  | resolveOk (subs : List Subscription)
  | resolveErr (e : String)
  | attemptStart (sub : Subscription) (payload : JsObject)
  | attemptDone (sub : Subscription) (outcome : Except String Nat)
  | logDeliveryError (url : String) (e : String)
  | logSilentFail (e : String)
  | ret
  deriving DecidableEq

/-- The oracle for one call: outcomes of the external collaborators
(`sendOrganizerRequestEmail`, `sendAttendeeRequestEmail`, `getWebhooks`,
`sendPayload`) together with the data the call reads (`evt`, the
`booking.eventType` record, `bookingId`).  `Except.error` models a rejected
promise. -/
structure World where
  organizerEmail : Except String Unit
  attendeeEmail : Except String Unit
  resolver : Except String (List Subscription)
  deliver : Subscription → Except String Nat
  evt : JsObject
  eventType : Option EventType
  bookingId : Int

/-- What one call produces: the value/rejection surfaced to the caller and
the event trace. -/
structure RunResult where
  result : Except String Unit
  trace : List Event
  deriving DecidableEq

/-- The settlement block of one subscriber's caught promise
(`sendPayload(...).catch(e => console.error(..., sub.subscriberUrl, e))`):
one outcome, plus the log event when the delivery rejected. -/
def settleEvents (deliver : Subscription → Except String Nat)
    (sub : Subscription) : List Event :=
  match deliver sub with
  | .ok status => [Event.attemptDone sub (.ok status)]
  | .error e => [Event.attemptDone sub (.error e),
                 Event.logDeliveryError sub.subscriberUrl e]

/-- The webhook fan-out of lines 62–74: `subscribers.map` synchronously issues
one `sendPayload` per subscriber (all `attemptStart`s precede every
settlement), each promise carries its own `.catch` that logs the subscriber's
URL, and `Promise.all` then awaits every settled outcome. -/
def fanoutEvents (deliver : Subscription → Except String Nat) (payload : JsObject)
    (subs : List Subscription) : List Event :=
  subs.map (fun sub => Event.attemptStart sub payload) ++
  subs.flatMap (settleEvents deliver)

/-- The coordinator `handleBookingRequested`: await the organizer request
email, then the
attendee request email (both outside the try/catch — their rejections escape
to the caller); inside the try/catch, resolve subscribers, build the payload
`{ ...evt, ...eventTypeInfo, bookingId }`, fan out one caught `sendPayload`
per subscriber, and `Promise.all` the caught promises; any error reaching the
outer catch is logged ("Silently fail") and the call resolves normally. -/
def handleBookingRequested (w : World) : RunResult :=
  match w.organizerEmail with
  | .error e => { result := .error e, trace := [] }
  | .ok _ =>
    match w.attendeeEmail with
    | .error e => { result := .error e, trace := [.organizerEmailSent] }
    | .ok _ =>
      match w.resolver with
      | .error e =>
          { result := .ok ()
            trace := [.organizerEmailSent, .attendeeEmailSent,
                      .resolveErr e, .logSilentFail e, .ret] }
      | .ok subs =>
          { result := .ok ()
            trace := [.organizerEmailSent, .attendeeEmailSent, .resolveOk subs] ++
              fanoutEvents w.deliver (buildPayload w.evt w.eventType w.bookingId) subs ++
              [.ret] }

/-- Two calls of `handleBookingRequested` with the same arguments, run in
sequence: the concatenated trace. -/
def handleBookingRequestedTwice (w : World) : List Event :=
  (handleBookingRequested w).trace ++ (handleBookingRequested w).trace

/-- The subscriptions for which a delivery was issued (`sendPayload`
invocations), in issue order. -/
def attemptsOf (evs : List Event) : List Subscription :=
  evs.filterMap (fun e =>
    match e with
    | .attemptStart s _ => some s
    | _ => none)

/-- The subscriptions whose delivery settled (one outcome each), in
settlement order. -/
def completionsOf (evs : List Event) : List Subscription :=
  evs.filterMap (fun e =>
    match e with
    | .attemptDone s _ => some s
    | _ => none)

/-- The resolver-interaction events of a trace. -/
def resolveEventsOf (evs : List Event) : List Event :=
  evs.filter (fun e =>
    match e with
    | .resolveOk _ => true
    | .resolveErr _ => true
    | _ => false)

def Event.isRet : Event → Bool
  | .ret => true
  | _ => false

/-- The part of the trace that happens strictly before the call returns. -/
def beforeReturn (evs : List Event) : List Event :=
  evs.takeWhile (fun e => !e.isRet)

theorem attemptsOf_append (a b : List Event) :
    attemptsOf (a ++ b) = attemptsOf a ++ attemptsOf b :=
  List.filterMap_append a b _

theorem fanoutEvents_eq (deliver : Subscription → Except String Nat)
    (payload : JsObject) (subs : List Subscription) :
    fanoutEvents deliver payload subs =
      subs.map (fun sub => Event.attemptStart sub payload) ++
      subs.flatMap (settleEvents deliver) := rfl

theorem attemptsOf_settle (deliver : Subscription → Except String Nat)
    (subs : List Subscription) :
    attemptsOf (subs.flatMap (settleEvents deliver)) = [] := by
  induction subs with
  | nil => rfl
  | cons x xs ih =>
      rw [List.flatMap_cons]
      unfold attemptsOf at ih ⊢
      rw [List.filterMap_append, ih, List.append_nil]
      unfold settleEvents
      cases h : deliver x <;> simp [h, List.filterMap]

theorem attemptsOf_fanout (deliver : Subscription → Except String Nat)
    (payload : JsObject) (subs : List Subscription) :
    attemptsOf (fanoutEvents deliver payload subs) = subs := by
  rw [fanoutEvents_eq, attemptsOf_append, attemptsOf_settle, List.append_nil]
  induction subs with
  | nil => rfl
  | cons x xs ih => simpa [attemptsOf, List.filterMap_cons] using ih

theorem completionsOf_append (a b : List Event) :
    completionsOf (a ++ b) = completionsOf a ++ completionsOf b :=
  List.filterMap_append a b _

theorem completionsOf_settle (deliver : Subscription → Except String Nat)
    (subs : List Subscription) :
    completionsOf (subs.flatMap (settleEvents deliver)) = subs := by
  induction subs with
  | nil => rfl
  | cons x xs ih =>
      rw [List.flatMap_cons]
      unfold completionsOf at ih ⊢
      rw [List.filterMap_append, ih]
      unfold settleEvents
      cases h : deliver x <;> simp [h, List.filterMap]

theorem completionsOf_fanout (deliver : Subscription → Except String Nat)
    (payload : JsObject) (subs : List Subscription) :
    completionsOf (fanoutEvents deliver payload subs) = subs := by
  rw [fanoutEvents_eq, completionsOf_append, completionsOf_settle]
  have h1 : completionsOf (subs.map (fun sub => Event.attemptStart sub payload)) = [] := by
    induction subs with
    | nil => rfl
    | cons x xs ih =>
        rw [List.map_cons]
        unfold completionsOf at ih ⊢
        rw [List.filterMap_cons, ih]
  rw [h1, List.nil_append]

theorem handleBookingRequested_success (w : World) (subs : List Subscription)
    (h1 : w.organizerEmail = .ok ()) (h2 : w.attendeeEmail = .ok ())
    (h3 : w.resolver = .ok subs) :
    handleBookingRequested w =
      { result := .ok ()
        trace := [.organizerEmailSent, .attendeeEmailSent, .resolveOk subs] ++
          fanoutEvents w.deliver (buildPayload w.evt w.eventType w.bookingId) subs ++
          [.ret] } := by
  unfold handleBookingRequested
  rw [h1, h2, h3]

theorem attemptsOf_success_trace (w : World) (subs : List Subscription)
    (h1 : w.organizerEmail = .ok ()) (h2 : w.attendeeEmail = .ok ())
    (h3 : w.resolver = .ok subs) :
    attemptsOf (handleBookingRequested w).trace = subs := by
  rw [handleBookingRequested_success w subs h1 h2 h3]
  show attemptsOf ((_ ++ _) ++ _) = subs
  rw [attemptsOf_append, attemptsOf_append, attemptsOf_fanout]
  show ([] ++ subs) ++ [] = subs
  simp

theorem completionsOf_success_trace (w : World) (subs : List Subscription)
    (h1 : w.organizerEmail = .ok ()) (h2 : w.attendeeEmail = .ok ())
    (h3 : w.resolver = .ok subs) :
    completionsOf (handleBookingRequested w).trace = subs := by
  rw [handleBookingRequested_success w subs h1 h2 h3]
  show completionsOf ((_ ++ _) ++ _) = subs
  rw [completionsOf_append, completionsOf_append, completionsOf_fanout]
  show ([] ++ subs) ++ [] = subs
  simp

/-- Every event the fan-out emits is an attempt, a settlement or a log —
never the return. -/
theorem fanout_no_ret (deliver : Subscription → Except String Nat)
    (payload : JsObject) (subs : List Subscription) :
    ∀ e ∈ fanoutEvents deliver payload subs, (!e.isRet) = true := by
  intro e he
  rw [fanoutEvents_eq] at he
  rcases List.mem_append.mp he with h | h
  · rcases List.mem_map.mp h with ⟨s, _, rfl⟩
    rfl
  · rcases List.mem_flatMap.mp h with ⟨s, _, hs⟩
    unfold settleEvents at hs
    cases hd : deliver s <;> rw [hd] at hs <;> simp at hs
    · rcases hs with rfl | rfl <;> rfl
    · subst hs; rfl

theorem takeWhile_all_append {α : Type} (p : α → Bool) (l l' : List α)
    (h : ∀ e ∈ l, p e = true) :
    (l ++ l').takeWhile p = l ++ l'.takeWhile p := by
  induction l with
  | nil => simp
  | cons x xs ih =>
      rw [List.cons_append, List.takeWhile_cons, if_pos (h x (List.mem_cons_self x xs)),
        List.cons_append, ih (fun e he => h e (List.mem_cons_of_mem x he))]

theorem beforeReturn_success_trace (w : World) (subs : List Subscription)
    (h1 : w.organizerEmail = .ok ()) (h2 : w.attendeeEmail = .ok ())
    (h3 : w.resolver = .ok subs) :
    beforeReturn (handleBookingRequested w).trace =
      [.organizerEmailSent, .attendeeEmailSent, .resolveOk subs] ++
        fanoutEvents w.deliver (buildPayload w.evt w.eventType w.bookingId) subs := by
  rw [handleBookingRequested_success w subs h1 h2 h3]
  show beforeReturn (([.organizerEmailSent, .attendeeEmailSent, .resolveOk subs] ++
    fanoutEvents w.deliver (buildPayload w.evt w.eventType w.bookingId) subs) ++ [.ret]) = _
  unfold beforeReturn
  rw [takeWhile_all_append]
  · show _ ++ [] = _
    rw [List.append_nil]
  · intro e he
    rcases List.mem_append.mp he with h | h
    · simp at h
      rcases h with rfl | rfl | rfl <;> rfl
    · exact fanout_no_ret w.deliver _ subs e h

/-- The composition `notify` of the spec for an arbitrary trigger: resolve
via `getWebhooks` over the in-scope subscription table, then run the
coordinator's webhook section (emails succeed). -/
def notifyViaGetWebhooks (trigger : WebhookTriggerEvent) (table : List Subscription)
    (deliver : Subscription → Except String Nat) (evt : JsObject)
    (et : Option EventType) (bid : Int) : RunResult :=
  handleBookingRequested
    { organizerEmail := .ok (), attendeeEmail := .ok (),
      resolver := .ok (getWebhooks trigger table),
      deliver := deliver, evt := evt, eventType := et, bookingId := bid }

/-! Concrete fixtures used by the witness theorems. -/

def subA : Subscription :=
  { id := 1, subscriberUrl := "https://a.example/hook", secret := some "s1",
    appId := none, active := true, eventTriggers := [.BOOKING_REQUESTED] }

def subB : Subscription :=
  { id := 2, subscriberUrl := "https://b.example/hook", secret := none,
    appId := some "zapier", active := true,
    eventTriggers := [.BOOKING_REQUESTED, .BOOKING_CREATED] }

def subC : Subscription :=
  { id := 3, subscriberUrl := "https://c.example/hook", secret := none,
    appId := none, active := false, eventTriggers := [.BOOKING_REQUESTED] }

def subD : Subscription :=
  { id := 4, subscriberUrl := "https://d.example/hook", secret := none,
    appId := none, active := true, eventTriggers := [.BOOKING_CREATED] }

def evtSample : JsObject :=
  [("type", .str "30min"), ("title", .str "30min between A and B"),
   ("price", .num 500), ("requiresConfirmation", .bool true)]

def deliverAB : Subscription → Except String Nat := fun s =>
  if s.id = 1 then .error "ECONNREFUSED" else .ok 200

def wResolverFail : World :=
  { organizerEmail := .ok (), attendeeEmail := .ok (),
    resolver := .error "storage error", deliver := fun _ => .ok 200,
    evt := evtSample, eventType := none, bookingId := 42 }

def wTwoSubs : World :=
  { organizerEmail := .ok (), attendeeEmail := .ok (),
    resolver := .ok [subA, subB], deliver := deliverAB,
    evt := evtSample, eventType := none, bookingId := 42 }

def wEmailFail : World :=
  { organizerEmail := .error "smtp down", attendeeEmail := .ok (),
    resolver := .ok [subA], deliver := fun _ => .ok 200,
    evt := evtSample, eventType := none, bookingId := 42 }

/-- Claim C1: when the subscriber resolver fails with a storage error (after
both request emails succeeded), the coordinator logs the error at the outer
catch, issues zero `sendPayload` calls, and resolves normally — nothing from
resolution or delivery escapes to the caller. -/
theorem c1_resolver_failure_isolated (w : World) (e : String)
    (h1 : w.organizerEmail = .ok ()) (h2 : w.attendeeEmail = .ok ())
    (h3 : w.resolver = .error e) :
    (handleBookingRequested w).result = .ok () ∧
    attemptsOf (handleBookingRequested w).trace = [] ∧
    Event.logSilentFail e ∈ (handleBookingRequested w).trace := by
  unfold handleBookingRequested
  rw [h1, h2, h3]
  refine ⟨rfl, rfl, ?_⟩
  simp

/-- Witness for C1 at a concrete world whose resolver rejects. -/
theorem c1_witness :
    (handleBookingRequested wResolverFail).result = .ok () ∧
    attemptsOf (handleBookingRequested wResolverFail).trace = [] ∧
    Event.logSilentFail "storage error" ∈ (handleBookingRequested wResolverFail).trace :=
  c1_resolver_failure_isolated wResolverFail "storage error" rfl rfl rfl

/-- Claim C2: a rejected delivery for one resolved subscriber is caught and
logged (with that subscriber's URL) at its own caught promise; every
subscriber in the resolved set still gets exactly its own attempt, and the
call still resolves normally. -/
theorem c2_delivery_failure_isolated (w : World) (subs : List Subscription)
    (sub : Subscription) (e : String)
    (h1 : w.organizerEmail = .ok ()) (h2 : w.attendeeEmail = .ok ())
    (h3 : w.resolver = .ok subs) (hmem : sub ∈ subs)
    (hfail : w.deliver sub = .error e) :
    (handleBookingRequested w).result = .ok () ∧
    attemptsOf (handleBookingRequested w).trace = subs ∧
    Event.logDeliveryError sub.subscriberUrl e ∈ (handleBookingRequested w).trace := by
  refine ⟨?_, attemptsOf_success_trace w subs h1 h2 h3, ?_⟩
  · rw [handleBookingRequested_success w subs h1 h2 h3]
  · rw [handleBookingRequested_success w subs h1 h2 h3]
    show _ ∈ (_ ++ fanoutEvents _ _ _) ++ _
    refine List.mem_append.mpr (Or.inl (List.mem_append.mpr (Or.inr ?_)))
    rw [fanoutEvents_eq]
    refine List.mem_append.mpr (Or.inr (List.mem_flatMap.mpr ⟨sub, hmem, ?_⟩))
    unfold settleEvents
    rw [hfail]
    simp

/-- Witness for C2: two resolved subscribers, delivery to the first rejects,
both are still attempted and the failure is logged with the first one's URL. -/
theorem c2_witness :
    (handleBookingRequested wTwoSubs).result = .ok () ∧
    attemptsOf (handleBookingRequested wTwoSubs).trace = [subA, subB] ∧
    Event.logDeliveryError subA.subscriberUrl "ECONNREFUSED" ∈
      (handleBookingRequested wTwoSubs).trace :=
  c2_delivery_failure_isolated wTwoSubs [subA, subB] subA "ECONNREFUSED"
    rfl rfl rfl (List.mem_cons_self subA [subB]) rfl

/-- Claim C3: in the merged payload `{ ...evt, ...eti, ...trig }`, a key
present on the trigger-specific fields takes its trigger-specific value; a
key absent there but present on the event-type info takes the event-type-info
value; otherwise the calendar-event-snapshot value (if any) is used. -/
theorem c3_payload_precedence (evt eti trig : JsObject) (k : String) :
    (mergePayload evt eti trig).getKey k =
      if trig.hasKey k then trig.getKey k
      else if eti.hasKey k then eti.getKey k
      else evt.getKey k := by
  unfold mergePayload
  rw [JsObject.getKey_spread, JsObject.getKey_spread]

/-- Claim C5: when `booking.eventType` is `null`, the payload still carries
the keys `eventTitle`, `eventDescription`, `requiresConfirmation`, `price`,
`currency` and `length` — each present with the absent-marker `undefined`
(`null` for `requiresConfirmation`, via `|| null`), never omitted. -/
theorem c5_missing_eventType_keys_present (evt : JsObject) (bid : Int) (k : String)
    (hk : k = "eventTitle" ∨ k = "eventDescription" ∨ k = "requiresConfirmation" ∨
          k = "price" ∨ k = "currency" ∨ k = "length") :
    (buildPayload evt none bid).getKey k =
      some (if k = "requiresConfirmation" then JsValue.null else JsValue.undef) := by
  unfold buildPayload mergePayload
  rw [JsObject.getKey_spread, JsObject.getKey_spread]
  rcases hk with rfl | rfl | rfl | rfl | rfl | rfl <;> rfl

/-- Witness for C5 at the key `price` over a concrete calendar event that
itself carries a `price` key. -/
theorem c5_witness :
    (buildPayload evtSample none 42).getKey "price" =
      some (if "price" = "requiresConfirmation" then JsValue.null else JsValue.undef) :=
  c5_missing_eventType_keys_present evtSample 42 "price"
    (Or.inr (Or.inr (Or.inr (Or.inl rfl))))

/-- Claim C9: `requiresConfirmation: booking.eventType?.requiresConfirmation || null`
coerces the falsy `false` to `null`, so an event type with
`requiresConfirmation = false` and a missing event-type record produce the
same `requiresConfirmation: null` in the payload — indistinguishable to a
consumer. -/
theorem c9_requiresConfirmation_false_coerced_to_null (evt : JsObject)
    (et : EventType) (bid : Int) (h : et.requiresConfirmation = false) :
    (buildPayload evt (some et) bid).getKey "requiresConfirmation" =
        some JsValue.null ∧
    (buildPayload evt none bid).getKey "requiresConfirmation" =
        some JsValue.null := by
  constructor
  · unfold buildPayload mergePayload
    rw [JsObject.getKey_spread, JsObject.getKey_spread]
    show (if (eventTypeInfo (some et)).hasKey "requiresConfirmation" = true
      then (eventTypeInfo (some et)).getKey "requiresConfirmation"
      else evt.getKey "requiresConfirmation") = some JsValue.null
    rw [if_pos]
    · show some (jsOr (JsValue.bool et.requiresConfirmation) JsValue.null) = _
      rw [h]
      rfl
    · rfl
  · unfold buildPayload mergePayload
    rw [JsObject.getKey_spread, JsObject.getKey_spread]
    rfl

def etNoConfirm : EventType :=
  { currency := "usd", description := some "Intro call", id := 7, length := 30,
    price := 0, requiresConfirmation := false, title := "Intro", teamId := none }

/-- Witness for C9: a concrete event type with `requiresConfirmation = false`
yields the same `requiresConfirmation: null` as a missing event type. -/
theorem c9_witness :
    (buildPayload evtSample (some etNoConfirm) 42).getKey "requiresConfirmation" =
        some JsValue.null ∧
    (buildPayload evtSample none 42).getKey "requiresConfirmation" =
        some JsValue.null :=
  c9_requiresConfirmation_false_coerced_to_null evtSample etNoConfirm 42 rfl

/-- Claim C4: for any trigger and any duplicate-free subscription table, the
notify pipeline issues exactly one delivery to each subscription that is
active with the trigger in its enabled set, and zero deliveries to any
subscription that is inactive or whose enabled set excludes the trigger. -/
theorem c4_attempts_exactly_matching (trigger : WebhookTriggerEvent)
    (table : List Subscription) (deliver : Subscription → Except String Nat)
    (evt : JsObject) (et : Option EventType) (bid : Int) (s : Subscription)
    (hnd : table.Nodup) (hs : s ∈ table) :
    ((s.active = true ∧ trigger ∈ s.eventTriggers) →
      (attemptsOf (notifyViaGetWebhooks trigger table deliver evt et bid).trace).count s = 1) ∧
    ((s.active = false ∨ trigger ∉ s.eventTriggers) →
      (attemptsOf (notifyViaGetWebhooks trigger table deliver evt et bid).trace).count s = 0) := by
  have hA : attemptsOf (notifyViaGetWebhooks trigger table deliver evt et bid).trace =
      getWebhooks trigger table :=
    attemptsOf_success_trace _ (getWebhooks trigger table) rfl rfl rfl
  rw [hA]
  unfold getWebhooks
  constructor
  · rintro ⟨hact, htrig⟩
    rw [List.count_filter (by simp [hact, htrig])]
    exact List.count_eq_one_of_mem hnd hs
  · intro hnm
    apply List.count_eq_zero.mpr
    intro hmem
    have hp := (List.mem_filter.mp hmem).2
    rcases hnm with hact | htrig
    · simp [hact] at hp
    · simp [htrig] at hp

/-- Witness for C4: a table with one matching, one inactive and one
differently-triggered subscription; the matching one is counted once. -/
theorem c4_witness :
    ((subA.active = true ∧
        WebhookTriggerEvent.BOOKING_REQUESTED ∈ subA.eventTriggers) →
      (attemptsOf (notifyViaGetWebhooks .BOOKING_REQUESTED [subA, subC, subD]
        deliverAB evtSample none 42).trace).count subA = 1) ∧
    ((subA.active = false ∨
        WebhookTriggerEvent.BOOKING_REQUESTED ∉ subA.eventTriggers) →
      (attemptsOf (notifyViaGetWebhooks .BOOKING_REQUESTED [subA, subC, subD]
        deliverAB evtSample none 42).trace).count subA = 0) :=
  c4_attempts_exactly_matching .BOOKING_REQUESTED [subA, subC, subD] deliverAB
    evtSample none 42 subA (by decide) (by decide)

/-- Claim C6: one notify call issues exactly one `sendPayload` and records
exactly one settled outcome per resolved subscription — never a retry inside
the same dispatch, whether the delivery succeeded or failed. -/
theorem c6_one_attempt_one_outcome (w : World) (subs : List Subscription)
    (h1 : w.organizerEmail = .ok ()) (h2 : w.attendeeEmail = .ok ())
    (h3 : w.resolver = .ok subs) :
    attemptsOf (handleBookingRequested w).trace = subs ∧
    completionsOf (handleBookingRequested w).trace = subs :=
  ⟨attemptsOf_success_trace w subs h1 h2 h3,
   completionsOf_success_trace w subs h1 h2 h3⟩

/-- Witness for C6: two resolved subscribers, one failing delivery — each is
attempted once and settles once. -/
theorem c6_witness :
    attemptsOf (handleBookingRequested wTwoSubs).trace = [subA, subB] ∧
    completionsOf (handleBookingRequested wTwoSubs).trace = [subA, subB] :=
  c6_one_attempt_one_outcome wTwoSubs [subA, subB] rfl rfl rfl

/-- Claim C7: the trace ends with the return, and strictly before the return
every resolved subscriber's delivery has settled (success or logged failure):
`Promise.all` makes the notify call wait for all deliveries. -/
theorem c7_all_settled_before_return (w : World) (subs : List Subscription)
    (h1 : w.organizerEmail = .ok ()) (h2 : w.attendeeEmail = .ok ())
    (h3 : w.resolver = .ok subs) :
    (handleBookingRequested w).trace.getLast? = some Event.ret ∧
    completionsOf (beforeReturn (handleBookingRequested w).trace) = subs := by
  constructor
  · rw [handleBookingRequested_success w subs h1 h2 h3]
    show ((_ ++ _) ++ [Event.ret]).getLast? = some Event.ret
    exact List.getLast?_concat _
  · rw [beforeReturn_success_trace w subs h1 h2 h3, completionsOf_append,
      completionsOf_fanout]
    rfl

/-- Witness for C7 at a concrete world with two subscribers. -/
theorem c7_witness :
    (handleBookingRequested wTwoSubs).trace.getLast? = some Event.ret ∧
    completionsOf (beforeReturn (handleBookingRequested wTwoSubs).trace) =
      [subA, subB] :=
  c7_all_settled_before_return wTwoSubs [subA, subB] rfl rfl rfl

/-- Claim C8: no idempotence — two calls with the same arguments issue the
resolved subscriber list twice, i.e. per subscriber twice the attempts of a
single call; nothing in this core deduplicates. -/
theorem c8_not_idempotent (w : World) (subs : List Subscription)
    (h1 : w.organizerEmail = .ok ()) (h2 : w.attendeeEmail = .ok ())
    (h3 : w.resolver = .ok subs) :
    attemptsOf (handleBookingRequestedTwice w) = subs ++ subs ∧
    ∀ s : Subscription, (attemptsOf (handleBookingRequestedTwice w)).count s =
      2 * (attemptsOf (handleBookingRequested w).trace).count s := by
  have hA := attemptsOf_success_trace w subs h1 h2 h3
  constructor
  · unfold handleBookingRequestedTwice
    rw [attemptsOf_append, hA]
  · intro s
    unfold handleBookingRequestedTwice
    rw [attemptsOf_append, List.count_append, hA]
    omega

/-- Witness for C8 at a concrete world with two subscribers. -/
theorem c8_witness :
    attemptsOf (handleBookingRequestedTwice wTwoSubs) = [subA, subB] ++ [subA, subB] ∧
    ∀ s : Subscription, (attemptsOf (handleBookingRequestedTwice wTwoSubs)).count s =
      2 * (attemptsOf (handleBookingRequested wTwoSubs).trace).count s :=
  c8_not_idempotent wTwoSubs [subA, subB] rfl rfl rfl

/-- Claim C10: the two request emails are awaited before the webhook section
and sit outside its try/catch: if either send rejects, the call itself
rejects with that error, with zero delivery attempts and no resolver call;
and in every run, both email events precede any resolver event. -/
theorem c10_emails_outside_swallowing_scope (w : World) (e : String)
    (h : w.organizerEmail = .error e ∨
         (w.organizerEmail = .ok () ∧ w.attendeeEmail = .error e)) :
    (handleBookingRequested w).result = .error e ∧
    attemptsOf (handleBookingRequested w).trace = [] ∧
    resolveEventsOf (handleBookingRequested w).trace = [] ∧
    (∀ w' : World, ∀ n : Nat,
      resolveEventsOf ((handleBookingRequested w').trace.take n) ≠ [] →
        Event.organizerEmailSent ∈ (handleBookingRequested w').trace.take n ∧
        Event.attendeeEmailSent ∈ (handleBookingRequested w').trace.take n) := by
  have hmain : (handleBookingRequested w).result = .error e ∧
      attemptsOf (handleBookingRequested w).trace = [] ∧
      resolveEventsOf (handleBookingRequested w).trace = [] := by
    rcases h with hO | ⟨hO, hA⟩
    · unfold handleBookingRequested
      rw [hO]
      exact ⟨rfl, rfl, rfl⟩
    · unfold handleBookingRequested
      rw [hO, hA]
      exact ⟨rfl, rfl, rfl⟩
  refine ⟨hmain.1, hmain.2.1, hmain.2.2, ?_⟩
  intro w' n hne
  cases hO : w'.organizerEmail with
  | error eO =>
      exfalso
      apply hne
      have ht : (handleBookingRequested w').trace = [] := by
        unfold handleBookingRequested
        rw [hO]
      rw [ht, List.take_nil]
      rfl
  | ok uO =>
      cases uO
      cases hA : w'.attendeeEmail with
      | error eA =>
          exfalso
          apply hne
          have ht : (handleBookingRequested w').trace = [Event.organizerEmailSent] := by
            unfold handleBookingRequested
            rw [hO, hA]
          rw [ht]
          cases n with
          | zero => rfl
          | succ m => cases m <;> rfl
      | ok uA =>
          cases uA
          obtain ⟨rest, ht⟩ : ∃ rest, (handleBookingRequested w').trace =
              Event.organizerEmailSent :: Event.attendeeEmailSent :: rest := by
            cases hR : w'.resolver with
            | error eR =>
                refine ⟨[.resolveErr eR, .logSilentFail eR, .ret], ?_⟩
                unfold handleBookingRequested
                rw [hO, hA, hR]
            | ok subs =>
                refine ⟨(Event.resolveOk subs ::
                  fanoutEvents w'.deliver
                    (buildPayload w'.evt w'.eventType w'.bookingId) subs) ++
                  [Event.ret], ?_⟩
                unfold handleBookingRequested
                rw [hO, hA, hR]
                rfl
          rw [ht] at hne ⊢
          match n with
          | 0 => exact absurd rfl hne
          | 1 => exact absurd rfl hne
          | Nat.succ (Nat.succ m) =>
              rw [List.take_succ_cons, List.take_succ_cons]
              exact ⟨List.mem_cons_self _ _,
                List.mem_cons_of_mem _ (List.mem_cons_self _ _)⟩

/-- Witness for C10: the organizer request email rejects; the call rejects
with that error and the webhook section never runs. -/
theorem c10_witness :
    (handleBookingRequested wEmailFail).result = .error "smtp down" ∧
    attemptsOf (handleBookingRequested wEmailFail).trace = [] ∧
    resolveEventsOf (handleBookingRequested wEmailFail).trace = [] ∧
    (∀ w' : World, ∀ n : Nat,
      resolveEventsOf ((handleBookingRequested w').trace.take n) ≠ [] →
        Event.organizerEmailSent ∈ (handleBookingRequested w').trace.take n ∧
        Event.attendeeEmailSent ∈ (handleBookingRequested w').trace.take n) :=
  c10_emails_outside_swallowing_scope wEmailFail "smtp down" (Or.inl rfl)

end CalWebhooks
